import Mathlib

/-!
Verification development for the InfoGenius session orchestrator and
generation gateway.

The definitions below are a shallow embedding of the TypeScript sources:

* `src/hooks/useInfographicSession.ts` — the session orchestrator hook
  (`executeGeneration`, `handleEdit`, `handleVerify`, `handleAnimate`,
  `handleRefreshNews`, `addToHistory`, `handleError`).
* `src/unnamed/part_000` — the current `geminiService`
  (`researchTopicForPrompt` parsing, `getLevelInstruction`,
  `getStyleInstruction`, `verifyInfographicAccuracy`).
* `src/unnamed/part_001` — the previous revision of `geminiService`
  (its `verifyInfographicAccuracy` with the degraded-parse path).
* `src/hooks/useLiveSession.ts` — the live-audio `onmessage` handler.

Asynchronous gateway calls are modelled by passing each remote call's
outcome (`Except GenError α`) to the handler as an explicit argument, and
each handler additionally returns the list of gateway calls it issued.
`Date.now()` is passed in as an explicit `now : Nat`.  JavaScript
truthiness of strings (`""` is falsy) and of optional values is translated
explicitly at each use site.
-/

namespace InfoGenius

/-- Verification result attached to an artifact (`types.ts` usage in the
hook; spec §3). -/
structure VerificationResult where
  score : Int
  isAccurate : Bool
  critique : String
  suggestedFix : Option String
  timestamp : Nat
deriving Repr, DecidableEq

/-- A search result item (`types.ts` usage in `part_000`): `isMap` tags a
maps-grounded source. -/
structure SearchResultItem where
  title : String
  url : String
  isMap : Bool
deriving Repr, DecidableEq

/-- A generated infographic artifact (`GeneratedImage` in `types.ts`,
fields as constructed and read in the hook; spec §3).  `facts` is an
optional field (`currentImage.facts || …` in `handleVerify`), as are
`verification` and `videoUri`. -/
structure GeneratedImage where
  id : String
  data : String
  prompt : String
  originalTopic : String
  facts : Option (List String)
  timestamp : Nat
  level : String
  style : String
  language : String
  verification : Option VerificationResult := none
  videoUri : Option String := none
deriving Repr, DecidableEq

instance : Inhabited GeneratedImage :=
  ⟨{ id := "", data := "", prompt := "", originalTopic := "", facts := none,
     timestamp := 0, level := "", style := "", language := "" }⟩

/-- Result of `researchTopicForPrompt` (`ResearchResult` in `types.ts`). -/
structure ResearchResult where
  imagePrompt : String
  facts : List String
  searchResults : List SearchResultItem
deriving Repr, DecidableEq

/-- An error thrown by a gateway call; carries `err.message`. -/
structure GenError where
  message : String
deriving Repr, DecidableEq

/-- One remote call issued by a handler to the generation gateway. -/
inductive GatewayCall where
  | research (topic level style language : String)
  | synthesizeImage (prompt : String)
  | editImage (data instruction : String)
  | verifyAccuracy (data : String) (facts : List String)
  | synthesizeVideo (topic data : String)
deriving Repr, DecidableEq

/-- The state held by `useInfographicSession` (its `useState` cells). -/
structure SessionState where
  topic : String
  complexityLevel : String
  visualStyle : String
  language : String
  isLoading : Bool
  loadingMessage : String
  loadingStep : Nat
  loadingFacts : List String
  error : Option String
  imageHistory : List GeneratedImage
  historyIndex : Nat
  currentSearchResults : List SearchResultItem
deriving Repr, DecidableEq

/-- Does `pat` occur at the head of `cs`? -/
def matchesHere (pat cs : List Char) : Bool :=
  match pat, cs with
  | [], _ => true
  | _ :: _, [] => false
  | p :: ps, c :: cs => p = c && matchesHere ps cs

/-- Scan for an occurrence of `pat` anywhere in the character list. -/
def includesAux (pat : List Char) : List Char → Bool
  | [] => matchesHere pat []
  | c :: cs => matchesHere pat (c :: cs) || includesAux pat cs

/-- JavaScript `s.includes(pat)`. -/
def strIncludes (s pat : String) : Bool :=
  includesAux pat.data s.data

/-- JavaScript `s.trim()`: drop leading and trailing whitespace. -/
def jsTrim (s : String) : String :=
  String.mk (((s.data.dropWhile Char.isWhitespace).reverse.dropWhile
    Char.isWhitespace).reverse)

/-- JavaScript `s.split('\n')`. -/
def splitOnNewline : List Char → List (List Char)
  | [] => [[]]
  | c :: cs =>
    if c = '\n' then [] :: splitOnNewline cs
    else
      match splitOnNewline cs with
      | [] => [[c]]
      | g :: gs => (c :: g) :: gs

/-- The condition of `handleError`'s first branch:
`err.message && (err.message.includes("Requested entity was not found") ||
err.message.includes("404") || err.message.includes("403"))`. -/
def isAuthErrorMessage (msg : String) : Bool :=
  msg ≠ "" && (strIncludes msg "Requested entity was not found" ||
    strIncludes msg "404" || strIncludes msg "403")

/-- `handleError` from `useInfographicSession.ts` (lines 52–60): sets the
session error message; `err.message || '…'` substitutes the default for an
empty message. -/
def handleError (s : SessionState) (err : GenError) : SessionState :=
  if isAuthErrorMessage err.message then
    { s with error := some "Access denied. Ensure you have a paid API key selected for these models." }
  else
    { s with error := some (if err.message = "" then "An unexpected error occurred." else err.message) }

/-- `addToHistory` (lines 36–39): prepend and reset the pointer to 0. -/
def addToHistory (s : SessionState) (image : GeneratedImage) : SessionState :=
  { s with imageHistory := image :: s.imageHistory, historyIndex := 0 }

/-- The `finally` block shared by every handler:
`setIsLoading(false); setLoadingStep(0)`. -/
def finalizeLoad (s : SessionState) : SessionState :=
  { s with isLoading := false, loadingStep := 0 }

/-- `executeGeneration` (lines 62–108).  The two awaited gateway outcomes
are passed in; the second is only consulted (and the corresponding call
only issued) when the first succeeded. -/
def executeGeneration (s : SessionState) (t l v lng : String)
    (research : Except GenError ResearchResult)
    (image : Except GenError String) (now : Nat) :
    SessionState × List GatewayCall :=
  if s.isLoading = true ∨ jsTrim t = "" then (s, [])
  else
    let s1 := { s with isLoading := true, error := none, loadingStep := 1,
                       loadingFacts := [], currentSearchResults := [],
                       loadingMessage := "Consulting Knowledge Base..." }
    match research with
    | Except.error e => (finalizeLoad (handleError s1 e), [GatewayCall.research t l v lng])
    | Except.ok rr =>
      let s2 := { s1 with loadingFacts := rr.facts,
                          currentSearchResults := rr.searchResults,
                          loadingStep := 2,
                          loadingMessage := "Synthesizing Visual Layout..." }
      match image with
      | Except.error e =>
          (finalizeLoad (handleError s2 e),
           [GatewayCall.research t l v lng, GatewayCall.synthesizeImage rr.imagePrompt])
      | Except.ok base64Data =>
          let newImage : GeneratedImage :=
            { id := toString now, data := base64Data, prompt := t,
              originalTopic := t, facts := some rr.facts, timestamp := now,
              level := l, style := v, language := lng }
          (finalizeLoad (addToHistory s2 newImage),
           [GatewayCall.research t l v lng, GatewayCall.synthesizeImage rr.imagePrompt])

/-- `handleEdit` (lines 149–175).  Note the only guard is an empty
history; `isLoading` is not consulted. -/
def handleEdit (s : SessionState) (editPrompt : String)
    (edit : Except GenError String) (now : Nat) :
    SessionState × List GatewayCall :=
  if s.imageHistory.length = 0 then (s, [])
  else
    let currentImage := s.imageHistory.getD s.historyIndex default
    let s1 := { s with isLoading := true, error := none, loadingStep := 2,
                       loadingMessage := "Refining Canvas: \"" ++ editPrompt ++ "\"..." }
    match edit with
    | Except.error e =>
        (finalizeLoad (handleError s1 e),
         [GatewayCall.editImage currentImage.data editPrompt])
    | Except.ok base64Data =>
        let newImage : GeneratedImage :=
          { currentImage with id := toString now, data := base64Data,
                              prompt := editPrompt, timestamp := now,
                              verification := none, videoUri := none }
        (finalizeLoad (addToHistory s1 newImage),
         [GatewayCall.editImage currentImage.data editPrompt])

/-- `handleAnimate` (lines 123–147).  `if (currentImage.videoUri) return`
is a JavaScript truthiness test (`undefined` and `""` are falsy), and
`originalTopic || prompt` likewise falls back on an empty topic. -/
def handleAnimate (s : SessionState)
    (video : Except GenError String) :
    SessionState × List GatewayCall :=
  if s.imageHistory.length = 0 then (s, [])
  else
    let currentImage := s.imageHistory.getD s.historyIndex default
    if currentImage.videoUri.getD "" ≠ "" then (s, [])
    else
      let s1 := { s with isLoading := true, error := none, loadingStep := 3,
                         loadingMessage := "Cinematic Animation Processing... (May take 1-2 mins)" }
      let call := GatewayCall.synthesizeVideo
        (if currentImage.originalTopic = "" then currentImage.prompt else currentImage.originalTopic)
        currentImage.data
      match video with
      | Except.error e => (finalizeLoad (handleError s1 e), [call])
      | Except.ok videoUri =>
          let updatedImage := { currentImage with videoUri := some videoUri }
          (finalizeLoad { s1 with imageHistory := s1.imageHistory.set s.historyIndex updatedImage },
           [call])

/-- `handleVerify` (lines 177–198).  `currentImage.facts || [fallback]`
only substitutes when `facts` is absent (a present empty array is truthy
in JavaScript).  Note this handler never clears `error`. -/
def handleVerify (s : SessionState)
    (verify : Except GenError VerificationResult) :
    SessionState × List GatewayCall :=
  if s.imageHistory.length = 0 then (s, [])
  else
    let currentImage := s.imageHistory.getD s.historyIndex default
    let facts := currentImage.facts.getD ["General knowledge about " ++ currentImage.prompt]
    let s1 := { s with isLoading := true,
                       loadingMessage := "Validating Visual Data...",
                       loadingStep := 2 }
    match verify with
    | Except.error e =>
        (finalizeLoad (handleError s1 e),
         [GatewayCall.verifyAccuracy currentImage.data facts])
    | Except.ok result =>
        let updatedImage := { currentImage with verification := some result }
        (finalizeLoad { s1 with imageHistory := s1.imageHistory.set s.historyIndex updatedImage },
         [GatewayCall.verifyAccuracy currentImage.data facts])

/-- `handleRefreshNews` (lines 200–212): re-runs research only; facts are
overwritten only when the refreshed research returned at least one. -/
def handleRefreshNews (s : SessionState)
    (research : Except GenError ResearchResult) :
    SessionState × List GatewayCall :=
  if s.imageHistory.length = 0 then (s, [])
  else
    let currentTopic := (s.imageHistory.getD s.historyIndex default).prompt
    let s1 := { s with isLoading := true,
                       loadingMessage := "Fetching Geographic & Search Updates...",
                       loadingStep := 1 }
    let call := GatewayCall.research currentTopic s.complexityLevel s.visualStyle s.language
    match research with
    | Except.error e => (finalizeLoad (handleError s1 e), [call])
    | Except.ok rr =>
        (finalizeLoad { s1 with
            currentSearchResults := rr.searchResults,
            loadingFacts := if rr.facts.length > 0 then rr.facts else s1.loadingFacts },
         [call])

namespace GeminiService

/-- `getLevelInstruction` from `part_000` (lines 55–68); the enumerated
keys are matched on their literal strings, with the switch's `default`
branch for anything else. -/
def getLevelInstruction (level : String) : String :=
  if level = "Elementary" then
    "Target Audience: Elementary School (Ages 6-10). Style: Bright, simple, fun. Use large clear icons and very minimal text labels."
  else if level = "High School" then
    "Target Audience: High School. Style: Standard Textbook. Clean lines, clear labels, accurate maps or diagrams. Avoid cartoony elements."
  else if level = "College" then
    "Target Audience: University. Style: Academic Journal. High detail, data-rich, precise cross-sections or complex schematics."
  else if level = "Expert" then
    "Target Audience: Industry Expert. Style: Technical Blueprint/Schematic. Extremely dense detail, monochrome or technical coloring, precise annotations."
  else
    "Target Audience: General Public. Style: Clear and engaging."

/-- `getStyleInstruction` from `part_000` (lines 70–81). -/
def getStyleInstruction (style : String) : String :=
  if style = "Minimalist" then
    "Aesthetic: Bauhaus Minimalist. Flat vector art, limited color palette (2-3 colors), reliance on negative space and simple geometric shapes."
  else if style = "Realistic" then
    "Aesthetic: Photorealistic Composite. Cinematic lighting, 8k resolution, highly detailed textures. Looks like a photograph."
  else if style = "Cartoon" then
    "Aesthetic: Educational Comic. Vibrant colors, thick outlines, expressive cel-shaded style."
  else if style = "Vintage" then
    "Aesthetic: 19th Century Scientific Lithograph. Engraving style, sepia tones, textured paper background, fine hatch lines."
  else if style = "Futuristic" then
    "Aesthetic: Cyberpunk HUD. Glowing neon blue/cyan lines on dark background, holographic data visualization, 3D wireframes."
  else if style = "3D Render" then
    "Aesthetic: 3D Isometric Render. Claymorphism or high-gloss plastic texture, studio lighting, soft shadows, looks like a physical model."
  else if style = "Sketch" then
    "Aesthetic: Da Vinci Notebook. Ink on parchment sketch, handwritten annotations style, rough but accurate lines."
  else
    "Aesthetic: High-quality digital scientific illustration. Clean, modern, highly detailed."

/-! ### The section regexes of `researchTopicForPrompt`

`part_000` lines 140 and 147 match, case-insensitively,
`(?:^|\n)\**LABEL:?\**` and capture what follows.  The scanner below
reproduces the backtracking behaviour of those patterns: a label match may
start at position 0 or directly after a newline character (leftmost such
position wins); at the match position any run of asterisks, the label
(ASCII case-insensitive), an optional colon and a further run of
asterisks are consumed. -/

/-- Case-insensitive prefix stripping (the `/i` flag). -/
def stripCaseless : List Char → List Char → Option (List Char)
  | [], cs => some cs
  | _ :: _, [] => none
  | l :: ls, c :: cs => if l.toLower = c.toLower then stripCaseless ls cs else none

/-- Consume `\**LABEL:?\**` at the current position, returning the rest. -/
def matchLabel (label : List Char) (cs : List Char) : Option (List Char) :=
  match stripCaseless label (cs.dropWhile (fun c => c = '*')) with
  | none => none
  | some rest =>
    let rest1 := match rest with
      | ':' :: r => r
      | r => r
    some (rest1.dropWhile (fun c => c = '*'))

/-- Scan for a position directly after a newline where the label matches. -/
def findLabelAfterNewline (label : List Char) : List Char → Option (List Char)
  | [] => none
  | c :: rest =>
    if c = '\n' then
      match matchLabel label rest with
      | some r => some r
      | none => findLabelAfterNewline label rest
    else findLabelAfterNewline label rest

/-- Leftmost match of `(?:^|\n)\**LABEL:?\**`, returning the remainder of
the text after the label. -/
def findSection (label : List Char) (cs : List Char) : Option (List Char) :=
  match matchLabel label cs with
  | some r => some r
  | none => findLabelAfterNewline label cs

/-- The lookahead `(?=(?:^|\n)\**IMAGE_PROMPT:?\**|$)` succeeds at a
newline iff the label matches right after it (`^` can never fire there,
and the optional colon and asterisks always succeed). -/
def isLabelAt (label : List Char) (cs : List Char) : Bool :=
  (stripCaseless label (cs.dropWhile (fun c => c = '*'))).isSome

/-- The lazy capture `([\s\S]*?)` of the FACTS regex: extend until the
first position whose character is a newline followed by the IMAGE_PROMPT
label, or the end of the string (the `$` alternative of the lookahead). -/
def captureUntilLabel (label : List Char) : List Char → List Char
  | [] => []
  | c :: rest =>
    if c = '\n' && isLabelAt label rest then []
    else c :: captureUntilLabel label rest

def factsLabel : List Char := "FACTS".data

def imagePromptLabel : List Char := "IMAGE_PROMPT".data

/-- `factsRaw` (`part_000` lines 140–141): the trimmed capture of the
FACTS regex, or `""` when the regex does not match.  The greedy `\s*`
before the capture group is the `dropWhile`. -/
def parseFactsRaw (text : String) : String :=
  match findSection factsLabel text.data with
  | some rest =>
      jsTrim (String.mk (captureUntilLabel imagePromptLabel
        (rest.dropWhile Char.isWhitespace)))
  | none => ""

/-- `f.replace(/^-\s*/, '')` on one bullet line. -/
def stripBullet (f : String) : String :=
  match f.data with
  | '-' :: rest => String.mk (rest.dropWhile Char.isWhitespace)
  | _ => f

/-- The facts pipeline (`part_000` lines 142–145): split on newlines,
strip bullets, trim, drop empties, cap at 5. -/
def parseFacts (text : String) : List String :=
  (((splitOnNewline (parseFactsRaw text).data).map
    (fun f => jsTrim (stripBullet (String.mk f)))).filter
      (fun f => f.length > 0)).take 5

/-- `imagePrompt` (`part_000` lines 147–148): the trimmed remainder after
the IMAGE_PROMPT label, or the deterministic fallback string. -/
def parseImagePrompt (topic levelInstr styleInstr : String) (text : String) : String :=
  match findSection imagePromptLabel text.data with
  | some rest => jsTrim (String.mk rest)
  | none =>
      "Create a detailed infographic about " ++ topic ++ ". " ++
        levelInstr ++ " " ++ styleInstr

/-- A grounding chunk reference (`chunk.web` / `chunk.maps`). -/
structure ChunkRef where
  uri : String
  title : String
deriving Repr, DecidableEq

/-- One grounding chunk of the research response. -/
structure GroundingChunk where
  web : Option ChunkRef := none
  maps : Option ChunkRef := none
deriving Repr, DecidableEq

/-- `chunk.web?.uri && chunk.web?.title` — both present and non-empty. -/
def refOk : Option ChunkRef → Bool
  | some r => r.uri ≠ "" && r.title ≠ ""
  | none => false

/-- The body of the `chunks.forEach` loop (`part_000` lines 154–160). -/
def chunkItem (chunk : GroundingChunk) : Option SearchResultItem :=
  if refOk chunk.web then
    chunk.web.map (fun w => { title := w.title, url := w.uri, isMap := false })
  else if refOk chunk.maps then
    chunk.maps.map (fun m => { title := m.title, url := m.uri, isMap := true })
  else none

/-- `searchResults` accumulation over the chunks (`forEach` + `push`). -/
def extractSearchResults (chunks : List GroundingChunk) : List SearchResultItem :=
  chunks.filterMap chunkItem

/-- One `Map.set` step of
`new Map(searchResults.map(item => [item.url, item]))`: an existing key
keeps its position but takes the new value; a fresh key is appended.  The
key of every entry is its own `url`, so the map is represented by its
value list. -/
def mapInsert (m : List SearchResultItem) (v : SearchResultItem) : List SearchResultItem :=
  if m.any (fun p => p.url = v.url) then
    m.map (fun p => if p.url = v.url then v else p)
  else m ++ [v]

/-- `Array.from(new Map(searchResults.map(item => [item.url, item])).values())`
(`part_000` line 163). -/
def dedupeByUrl (items : List SearchResultItem) : List SearchResultItem :=
  items.foldl mapInsert []

/-- The response of a `generateContent` call, as far as the parsing code
reads it: `response.text` and the grounding chunks. -/
structure GenAiResponse where
  text : Option String := none
  groundingChunks : Option (List GroundingChunk) := none
deriving Repr, DecidableEq

/-- The parsing half of `researchTopicForPrompt` (`part_000` lines
138–169), applied to a successful response. -/
def researchTopicForPrompt (topic level style : String)
    (response : GenAiResponse) : ResearchResult :=
  let levelInstr := getLevelInstruction level
  let styleInstr := getStyleInstruction style
  let text := response.text.getD ""
  { imagePrompt := parseImagePrompt topic levelInstr styleInstr text,
    facts := parseFacts text,
    searchResults := dedupeByUrl (extractSearchResults (response.groundingChunks.getD [])) }

/-- The fields `verifyInfographicAccuracy` reads out of the parsed JSON
object. -/
structure ParsedVerification where
  score : Int
  isAccurate : Bool
  critique : String
  suggestedFix : Option String
deriving Repr, DecidableEq

/-- `verifyInfographicAccuracy` from `part_000` (lines 243–269), the
version the hook currently imports.  `jsonParse` stands for `JSON.parse`
together with reading the expected fields; `none` models a parse
exception.  `response.text || "{}"` substitutes for an absent or empty
text.  A parse exception propagates out of the `try` block, is logged by
the `catch`, and rethrown — the call fails. -/
def verifyInfographicAccuracy (jsonParse : String → Option ParsedVerification)
    (responseText : Option String) (now : Nat) :
    Except String VerificationResult :=
  let text := match responseText with
    | none => "{}"
    | some t => if t = "" then "{}" else t
  match jsonParse text with
  | some r =>
      Except.ok { score := r.score, isAccurate := r.isAccurate,
                  critique := r.critique, suggestedFix := r.suggestedFix,
                  timestamp := now }
  | none => Except.error "Unexpected token in JSON"

end GeminiService

namespace GeminiServiceLegacy

open GeminiService (ParsedVerification)

/-- `verifyInfographicAccuracy` from `part_001` (lines 177–242), the
previous revision of the service.  An absent or empty `response.text`
throws (`if (!text) throw …`); an inner `try/catch` around `JSON.parse`
degrades an unparsable response to a score-50 result whose critique
carries the first 100 characters of the raw text. -/
def verifyInfographicAccuracy (jsonParse : String → Option ParsedVerification)
    (responseText : Option String) (now : Nat) :
    Except String VerificationResult :=
  match responseText with
  | none => Except.error "Failed to verify image"
  | some t =>
    if t = "" then Except.error "Failed to verify image"
    else
      match jsonParse t with
      | some r =>
          Except.ok { score := r.score, isAccurate := r.isAccurate,
                      critique := r.critique, suggestedFix := r.suggestedFix,
                      timestamp := now }
      | none =>
          Except.ok { score := 50, isAccurate := false,
                      critique := "Failed to parse verification result. Raw response: " ++ String.mk (t.data.take 100),
                      suggestedFix := none, timestamp := now }

end GeminiServiceLegacy

/-! ### Live session audio scheduling (`useLiveSession.ts`) -/

/-- A buffer source scheduled on the output audio context. -/
structure AudioSource where
  startTime : Nat
  duration : Nat
deriving Repr, DecidableEq

/-- The playback-relevant refs of `useLiveSession`:
`outputContextRef` (presence and its `currentTime`), `nextStartTimeRef`
and `audioQueueRef`.  Times are abstract clock ticks. -/
structure LiveAudioState where
  hasOutputCtx : Bool
  currentTime : Nat
  nextStartTime : Nat
  audioQueue : List AudioSource
deriving Repr, DecidableEq

/-- An inbound live-server message as read by `onmessage`:
`message.serverContent?.modelTurn?.parts?.[0]?.inlineData?.data` decoded
to a buffer of some duration (`none` also covers a decode failure, which
the code catches and ignores), and `message.serverContent?.interrupted`. -/
structure ServerMessage where
  audioChunk : Option Nat := none
  interrupted : Bool := false
deriving Repr, DecidableEq

/-- The `onmessage` callback (`useLiveSession.ts` lines 127–167): first
the audio chunk, if any, is scheduled gaplessly
(`startTime = max(nextStartTime, ctx.currentTime)`, then
`nextStartTime = startTime + duration`, `push`); then an `interrupted`
signal stops every queued source, empties the queue and, when the output
context exists, resets `nextStartTime` to `ctx.currentTime`.  The second
component collects the sources `stop()` was called on. -/
def onmessage (st : LiveAudioState) (msg : ServerMessage) :
    LiveAudioState × List AudioSource :=
  let st1 :=
    match msg.audioChunk with
    | some duration =>
        if st.hasOutputCtx then
          let startTime := max st.nextStartTime st.currentTime
          { st with nextStartTime := startTime + duration,
                    audioQueue := st.audioQueue ++ [{ startTime := startTime, duration := duration }] }
        else st
    | none => st
  if msg.interrupted then
    ({ st1 with audioQueue := [],
                nextStartTime := if st1.hasOutputCtx then st1.currentTime else st1.nextStartTime },
     st1.audioQueue)
  else (st1, [])

/-! ### Specification-side helper definitions -/

namespace GeminiService

/-- The last entry of `items` carrying the given URL (the "last
encountered" entry of the deduplication claim). -/
def lastWith (u : String) : List SearchResultItem → Option SearchResultItem
  | [] => none
  | x :: xs =>
    match lastWith u xs with
    | some it => some it
    | none => if x.url = u then some x else none

end GeminiService

/-! ### Concrete sample data used by witnesses and counterexamples -/

/-- A concrete artifact for witness states. -/
def sampleImage : GeneratedImage :=
  { id := "1", data := "img0", prompt := "volcanoes", originalTopic := "volcanoes",
    facts := some ["magma rises"], timestamp := 10, level := "High School",
    style := "Default", language := "English" }

/-- A concrete artifact with no recorded facts. -/
def sampleImageNoFacts : GeneratedImage :=
  { sampleImage with id := "2", facts := none }

/-- A concrete idle session state holding one artifact. -/
def sampleState : SessionState :=
  { topic := "volcanoes", complexityLevel := "High School", visualStyle := "Default",
    language := "English", isLoading := false, loadingMessage := "", loadingStep := 0,
    loadingFacts := [], error := none, imageHistory := [sampleImage],
    historyIndex := 0, currentSearchResults := [] }

/-- A concrete idle session state whose only artifact has no facts. -/
def sampleStateNoFacts : SessionState :=
  { sampleState with imageHistory := [sampleImageNoFacts] }

/-- A concrete verification result. -/
def sampleVerif : VerificationResult :=
  { score := 90, isAccurate := true, critique := "ok", suggestedFix := none, timestamp := 5 }

/-- Concrete grounding chunks with a duplicated URL (a web entry and a
later maps entry for the same address). -/
def sampleChunks : List GeminiService.GroundingChunk :=
  [ { web := some { uri := "https://a.example", title := "First A" } },
    { web := some { uri := "https://b.example", title := "B" } },
    { maps := some { uri := "https://a.example", title := "Second A" } } ]

/-- A concrete research response carrying the duplicated chunks. -/
def sampleResponseDup : GeminiService.GenAiResponse :=
  { text := some "irrelevant", groundingChunks := some sampleChunks }

/-- A concrete research response whose text has a FACTS section but no
IMAGE_PROMPT section. -/
def sampleResponseNoPrompt : GeminiService.GenAiResponse :=
  { text := some "FACTS:\n- A cat fact" }

/-- A concrete research result with no facts. -/
def sampleResearchNoFacts : ResearchResult :=
  { imagePrompt := "p", facts := [],
    searchResults := [{ title := "t", url := "u", isMap := false }] }

/-- A concrete live-audio playback state with one scheduled source. -/
def sampleLive : LiveAudioState :=
  { hasOutputCtx := true, currentTime := 40, nextStartTime := 100,
    audioQueue := [{ startTime := 0, duration := 50 }] }

/-! ## Theorems -/

/-! ### Helper lemmas -/

theorem handleError_imageHistory (s : SessionState) (e : GenError) :
    (handleError s e).imageHistory = s.imageHistory := by
  unfold handleError; split <;> rfl

theorem handleError_historyIndex (s : SessionState) (e : GenError) :
    (handleError s e).historyIndex = s.historyIndex := by
  unfold handleError; split <;> rfl

theorem handleError_error_ne_none (s : SessionState) (e : GenError) :
    (handleError s e).error ≠ none := by
  unfold handleError; split <;> simp

theorem getD_set_self {α : Type _} (l : List α) (i : Nat) (a d : α)
    (h : i < l.length) : (l.set i a).getD i d = a := by
  induction l generalizing i with
  | nil => simp at h
  | cons x xs ih =>
    cases i with
    | zero => rfl
    | succ n =>
      have hn : n < xs.length := by simpa using h
      simpa [List.set, List.getD_cons_succ] using ih n hn

/-! ### Claim C1 -/

/-- Claim C1: a successful Edit at the current `historyIndex` prepends a
new artifact at index 0 with `verification` and `videoUri` cleared,
`prompt` equal to the edit instruction and `originalTopic` carried over
from the edited artifact; and a successful Generate likewise prepends an
artifact carrying neither a verification nor a video. -/
theorem edit_clears_verification_and_video
    (s : SessionState) (p base64Data : String) (now : Nat) (cur : GeneratedImage)
    (hne : s.imageHistory.length ≠ 0)
    (hcur : s.imageHistory.getD s.historyIndex default = cur) :
    (handleEdit s p (Except.ok base64Data) now).1.imageHistory
      = { cur with id := toString now, data := base64Data, prompt := p,
                   timestamp := now, verification := none, videoUri := none }
          :: s.imageHistory ∧
    (handleEdit s p (Except.ok base64Data) now).1.historyIndex = 0 ∧
    ((handleEdit s p (Except.ok base64Data) now).1.imageHistory.getD 0 default).verification = none ∧
    ((handleEdit s p (Except.ok base64Data) now).1.imageHistory.getD 0 default).videoUri = none ∧
    ((handleEdit s p (Except.ok base64Data) now).1.imageHistory.getD 0 default).prompt = p ∧
    ((handleEdit s p (Except.ok base64Data) now).1.imageHistory.getD 0 default).originalTopic
      = cur.originalTopic ∧
    (∀ (s0 : SessionState) (t l v lng img : String) (rr : ResearchResult) (n2 : Nat),
      s0.isLoading = false → ¬ jsTrim t = "" →
      ((executeGeneration s0 t l v lng (Except.ok rr) (Except.ok img) n2).1.imageHistory.getD 0 default).verification = none ∧
      ((executeGeneration s0 t l v lng (Except.ok rr) (Except.ok img) n2).1.imageHistory.getD 0 default).videoUri = none) := by
  have hres : handleEdit s p (Except.ok base64Data) now
      = (finalizeLoad (addToHistory
          { s with isLoading := true, error := none, loadingStep := 2,
                   loadingMessage := "Refining Canvas: \"" ++ p ++ "\"..." }
          { cur with id := toString now, data := base64Data, prompt := p,
                     timestamp := now, verification := none, videoUri := none }),
         [GatewayCall.editImage cur.data p]) := by
    unfold handleEdit
    rw [if_neg hne]
    rw [hcur]
  refine ⟨?_, ?_, ?_, ?_, ?_, ?_, ?_⟩
  · rw [hres]; rfl
  · rw [hres]; rfl
  · rw [hres]; rfl
  · rw [hres]; rfl
  · rw [hres]; rfl
  · rw [hres]; rfl
  · intro s0 t l v lng img rr n2 h0 ht
    have hguard : ¬ (s0.isLoading = true ∨ jsTrim t = "") := by
      rw [h0]; simp [ht]
    unfold executeGeneration
    rw [if_neg hguard]
    exact ⟨rfl, rfl⟩

/-- Claim C1 witness: the edit theorem instantiated at a concrete
one-artifact session. -/
theorem edit_clears_verification_and_video_witness :
    (sampleState.imageHistory.length ≠ 0 ∧
     sampleState.imageHistory.getD sampleState.historyIndex default = sampleImage) ∧
    ((handleEdit sampleState "make the sun bigger" (Except.ok "img1") 99).1.imageHistory
      = { sampleImage with id := toString 99, data := "img1", prompt := "make the sun bigger",
                           timestamp := 99, verification := none, videoUri := none }
          :: sampleState.imageHistory ∧
     (handleEdit sampleState "make the sun bigger" (Except.ok "img1") 99).1.historyIndex = 0 ∧
     ((handleEdit sampleState "make the sun bigger" (Except.ok "img1") 99).1.imageHistory.getD 0 default).verification = none ∧
     ((handleEdit sampleState "make the sun bigger" (Except.ok "img1") 99).1.imageHistory.getD 0 default).videoUri = none ∧
     ((handleEdit sampleState "make the sun bigger" (Except.ok "img1") 99).1.imageHistory.getD 0 default).prompt = "make the sun bigger" ∧
     ((handleEdit sampleState "make the sun bigger" (Except.ok "img1") 99).1.imageHistory.getD 0 default).originalTopic
       = sampleImage.originalTopic ∧
     (∀ (s0 : SessionState) (t l v lng img : String) (rr : ResearchResult) (n2 : Nat),
       s0.isLoading = false → ¬ jsTrim t = "" →
       ((executeGeneration s0 t l v lng (Except.ok rr) (Except.ok img) n2).1.imageHistory.getD 0 default).verification = none ∧
       ((executeGeneration s0 t l v lng (Except.ok rr) (Except.ok img) n2).1.imageHistory.getD 0 default).videoUri = none)) :=
  ⟨⟨by decide, by decide⟩,
   edit_clears_verification_and_video sampleState "make the sun bigger" "img1" 99 sampleImage
     (by decide) (by decide)⟩

/-! ### Claim C2 -/

/-- Claim C2 counterexample: in a loading state with a non-empty history,
Edit is not a no-op — it changes the history and issues a gateway call,
refuting the claim that Edit during `isLoading` leaves everything
unchanged and issues no call. -/
theorem edit_during_loading_not_noop_cex :
    ¬ ((handleEdit { sampleState with isLoading := true } "make the sun bigger"
          (Except.ok "img1") 99).1.imageHistory
        = ({ sampleState with isLoading := true } : SessionState).imageHistory ∧
       (handleEdit { sampleState with isLoading := true } "make the sun bigger"
          (Except.ok "img1") 99).2 = []) := by
  decide

/-- Claim C2 (amended): while a call is in flight (`isLoading` true), a
second Generate is dropped — `executeGeneration` returns the state
unchanged and issues no gateway call; Edit, however, is not guarded by
`isLoading`: it is a no-op exactly when the history is empty. -/
theorem generate_inflight_dropped_edit_guarded_by_history
    (s s2 : SessionState) (t l v lng p : String)
    (research : Except GenError ResearchResult) (image edit : Except GenError String)
    (now now2 : Nat)
    (hload : s.isLoading = true) (hh : s2.imageHistory = []) :
    executeGeneration s t l v lng research image now = (s, []) ∧
    handleEdit s2 p edit now2 = (s2, []) := by
  constructor
  · unfold executeGeneration
    rw [if_pos (Or.inl hload)]
  · unfold handleEdit
    rw [if_pos (by rw [hh]; rfl)]

/-- Claim C2 witness: the amended theorem at a concrete loading state and
a concrete empty-history state. -/
theorem generate_inflight_dropped_edit_guarded_by_history_witness :
    (({ sampleState with isLoading := true } : SessionState).isLoading = true ∧
     ({ sampleState with imageHistory := [] } : SessionState).imageHistory = []) ∧
    (executeGeneration { sampleState with isLoading := true } "volcanoes" "High School"
        "Default" "English" (Except.error { message := "x" }) (Except.ok "img1") 99
      = ({ sampleState with isLoading := true }, []) ∧
     handleEdit { sampleState with imageHistory := [] } "bigger" (Except.ok "img1") 99
      = ({ sampleState with imageHistory := [] }, [])) :=
  ⟨⟨by decide, by decide⟩,
   generate_inflight_dropped_edit_guarded_by_history
     { sampleState with isLoading := true } { sampleState with imageHistory := [] }
     "volcanoes" "High School" "Default" "English" "bigger"
     (Except.error { message := "x" }) (Except.ok "img1") (Except.ok "img1") 99 99
     (by decide) (by decide)⟩

/-! ### Claim C3 -/

/-- Claim C3: when a permitted Generate call fails at the research or the
image-synthesis step, the error state is set and the history sequence and
pointer are exactly as before the call; and on every exit, success or
failure, `isLoading` is cleared and the loading step reset (the `finally`
block). -/
theorem generation_failure_preserves_history_and_clears_loading
    (s : SessionState) (t l v lng : String)
    (research : Except GenError ResearchResult) (image : Except GenError String)
    (now : Nat)
    (hnl : s.isLoading = false) (ht : ¬ jsTrim t = "") :
    (executeGeneration s t l v lng research image now).1.isLoading = false ∧
    (executeGeneration s t l v lng research image now).1.loadingStep = 0 ∧
    (∀ e, research = Except.error e →
      (executeGeneration s t l v lng research image now).1.error ≠ none ∧
      (executeGeneration s t l v lng research image now).1.imageHistory = s.imageHistory ∧
      (executeGeneration s t l v lng research image now).1.historyIndex = s.historyIndex) ∧
    (∀ rr e, research = Except.ok rr → image = Except.error e →
      (executeGeneration s t l v lng research image now).1.error ≠ none ∧
      (executeGeneration s t l v lng research image now).1.imageHistory = s.imageHistory ∧
      (executeGeneration s t l v lng research image now).1.historyIndex = s.historyIndex) := by
  have hguard : ¬ (s.isLoading = true ∨ jsTrim t = "") := by
    rw [hnl]; simp [ht]
  unfold executeGeneration
  rw [if_neg hguard]
  cases research with
  | error e =>
    refine ⟨rfl, rfl, ?_, ?_⟩
    · intro e' _
      refine ⟨?_, ?_, ?_⟩
      · exact handleError_error_ne_none _ e
      · exact handleError_imageHistory _ e
      · exact handleError_historyIndex _ e
    · intro rr e' hre _
      exact absurd hre (by simp)
  | ok rr =>
    cases image with
    | error e =>
      refine ⟨rfl, rfl, ?_, ?_⟩
      · intro e' hre
        exact absurd hre (by simp)
      · intro rr' e' _ _
        refine ⟨?_, ?_, ?_⟩
        · exact handleError_error_ne_none _ e
        · exact handleError_imageHistory _ e
        · exact handleError_historyIndex _ e
    | ok base64Data =>
      refine ⟨rfl, rfl, ?_, ?_⟩
      · intro e' hre
        exact absurd hre (by simp)
      · intro rr' e' _ him
        exact absurd him (by simp)

/-- Claim C3 witness: a research failure at a concrete idle state. -/
theorem generation_failure_preserves_history_and_clears_loading_witness :
    (sampleState.isLoading = false ∧ ¬ (jsTrim "volcanoes" = "")) ∧
    ((executeGeneration sampleState "volcanoes" "High School" "Default" "English"
        (Except.error { message := "quota" }) (Except.ok "img1") 99).1.isLoading = false ∧
     (executeGeneration sampleState "volcanoes" "High School" "Default" "English"
        (Except.error { message := "quota" }) (Except.ok "img1") 99).1.loadingStep = 0 ∧
     (∀ e, (Except.error { message := "quota" } : Except GenError ResearchResult) = Except.error e →
       (executeGeneration sampleState "volcanoes" "High School" "Default" "English"
          (Except.error { message := "quota" }) (Except.ok "img1") 99).1.error ≠ none ∧
       (executeGeneration sampleState "volcanoes" "High School" "Default" "English"
          (Except.error { message := "quota" }) (Except.ok "img1") 99).1.imageHistory = sampleState.imageHistory ∧
       (executeGeneration sampleState "volcanoes" "High School" "Default" "English"
          (Except.error { message := "quota" }) (Except.ok "img1") 99).1.historyIndex = sampleState.historyIndex) ∧
     (∀ rr e, (Except.error { message := "quota" } : Except GenError ResearchResult) = Except.ok rr →
       (Except.ok "img1" : Except GenError String) = Except.error e →
       (executeGeneration sampleState "volcanoes" "High School" "Default" "English"
          (Except.error { message := "quota" }) (Except.ok "img1") 99).1.error ≠ none ∧
       (executeGeneration sampleState "volcanoes" "High School" "Default" "English"
          (Except.error { message := "quota" }) (Except.ok "img1") 99).1.imageHistory = sampleState.imageHistory ∧
       (executeGeneration sampleState "volcanoes" "High School" "Default" "English"
          (Except.error { message := "quota" }) (Except.ok "img1") 99).1.historyIndex = sampleState.historyIndex)) :=
  ⟨⟨by decide, by decide⟩,
   generation_failure_preserves_history_and_clears_loading sampleState "volcanoes"
     "High School" "Default" "English" (Except.error { message := "quota" })
     (Except.ok "img1") 99 (by decide) (by decide)⟩

/-! ### Claim C4 -/

/-- Claim C4 (code bug in the current service): on a raw response that
`JSON.parse` rejects, the `verifyInfographicAccuracy` currently imported
by the hook (`part_000`) fails — its catch rethrows the parse exception —
whereas the previous revision (`part_001`) returns exactly the degraded
result the claim describes (score 50, not accurate, critique carrying a
truncated excerpt of the raw response). -/
theorem verify_parse_failure_throws_current_degrades_legacy :
    GeminiService.verifyInfographicAccuracy (fun _ => none) (some "this is not JSON") 7
      = Except.error "Unexpected token in JSON" ∧
    GeminiServiceLegacy.verifyInfographicAccuracy (fun _ => none) (some "this is not JSON") 7
      = Except.ok { score := 50, isAccurate := false,
                    critique := "Failed to parse verification result. Raw response: this is not JSON",
                    suggestedFix := none, timestamp := 7 } := by
  constructor
  · rfl
  · rfl

/-! ### Claim C5 -/

/-- Claim C5 counterexample: when the first Animate's video-synthesis
call fails, the artifact's `videoUri` stays unset and a second Animate on
the same artifact, with no intervening Edit, issues a second gateway
call — refuting "at most one underlying video-synthesis call". -/
theorem animate_two_calls_after_failure_cex :
    ¬ ((handleAnimate sampleState (Except.error { message := "veo down" })).2.length
        + (handleAnimate (handleAnimate sampleState (Except.error { message := "veo down" })).1
            (Except.ok "blob:v1")).2.length ≤ 1) := by
  decide

/-- Claim C5 (amended): once the current artifact carries a non-empty
`videoUri`, a further Animate is a no-op — the state is returned
untouched and no gateway call is issued; and when an Animate succeeds
with a non-empty URI, the immediately following Animate issues no further
call, so two Animate invocations in succession issue exactly one
video-synthesis call provided the first one succeeds. -/
theorem animate_noop_once_video_set
    (s : SessionState) (cur : GeneratedImage)
    (hne : s.imageHistory.length ≠ 0)
    (hidx : s.historyIndex < s.imageHistory.length)
    (hcur : s.imageHistory.getD s.historyIndex default = cur) :
    (cur.videoUri.getD "" ≠ "" → ∀ r, handleAnimate s r = (s, [])) ∧
    (∀ uri s2 calls, cur.videoUri.getD "" = "" → uri ≠ "" →
      handleAnimate s (Except.ok uri) = (s2, calls) →
      calls.length = 1 ∧ ∀ r2, handleAnimate s2 r2 = (s2, [])) := by
  constructor
  · intro hv r
    unfold handleAnimate
    rw [if_neg hne, hcur, if_pos hv]
  · intro uri s2 calls hvz huri heq
    have hnotv : ¬ cur.videoUri.getD "" ≠ "" := by rw [hvz]; simp
    have h1 : handleAnimate s (Except.ok uri)
        = ({ s with isLoading := false, loadingStep := 0, error := none,
                    loadingMessage := "Cinematic Animation Processing... (May take 1-2 mins)",
                    imageHistory := s.imageHistory.set s.historyIndex
                      { cur with videoUri := some uri } },
           [GatewayCall.synthesizeVideo
             (if cur.originalTopic = "" then cur.prompt else cur.originalTopic) cur.data]) := by
      unfold handleAnimate
      rw [if_neg hne, hcur, if_neg hnotv]
      rfl
    rw [h1] at heq
    injection heq with hs hc
    subst hs
    subst hc
    constructor
    · rfl
    · intro r2
      have hg : (s.imageHistory.set s.historyIndex
            { cur with videoUri := some uri }).getD s.historyIndex default
          = { cur with videoUri := some uri } := getD_set_self _ _ _ _ hidx
      unfold handleAnimate
      simp only [hg, List.length_set, Option.getD_some]
      rw [if_neg hne, if_pos huri]

/-- Claim C5 witness: the amended theorem at a concrete state holding one
artifact with no video yet. -/
theorem animate_noop_once_video_set_witness :
    (sampleState.imageHistory.length ≠ 0 ∧
     sampleState.historyIndex < sampleState.imageHistory.length ∧
     sampleState.imageHistory.getD sampleState.historyIndex default = sampleImage) ∧
    ((sampleImage.videoUri.getD "" ≠ "" → ∀ r, handleAnimate sampleState r = (sampleState, [])) ∧
     (∀ uri s2 calls, sampleImage.videoUri.getD "" = "" → uri ≠ "" →
       handleAnimate sampleState (Except.ok uri) = (s2, calls) →
       calls.length = 1 ∧ ∀ r2, handleAnimate s2 r2 = (s2, []))) :=
  ⟨⟨by decide, by decide, by decide⟩,
   animate_noop_once_video_set sampleState sampleImage (by decide) (by decide) (by decide)⟩

/-! ### Claim C6 -/

/-- Claim C6: a Verify on an artifact with no `facts` field calls the
gateway with the non-empty synthesized fact list derived from the
artifact's prompt, and on success mutates the artifact in place at its
current index — same `id`, same `timestamp`, history length and pointer
unchanged. -/
theorem verify_without_facts_nonempty_list_in_place
    (s : SessionState) (res : VerificationResult) (cur : GeneratedImage)
    (hne : s.imageHistory.length ≠ 0)
    (hidx : s.historyIndex < s.imageHistory.length)
    (hcur : s.imageHistory.getD s.historyIndex default = cur)
    (hfacts : cur.facts = none) :
    (handleVerify s (Except.ok res)).2
      = [GatewayCall.verifyAccuracy cur.data ["General knowledge about " ++ cur.prompt]] ∧
    (["General knowledge about " ++ cur.prompt] : List String) ≠ [] ∧
    (handleVerify s (Except.ok res)).1.imageHistory.length = s.imageHistory.length ∧
    (handleVerify s (Except.ok res)).1.historyIndex = s.historyIndex ∧
    (handleVerify s (Except.ok res)).1.imageHistory.getD s.historyIndex default
      = { cur with verification := some res } ∧
    ((handleVerify s (Except.ok res)).1.imageHistory.getD s.historyIndex default).id = cur.id ∧
    ((handleVerify s (Except.ok res)).1.imageHistory.getD s.historyIndex default).timestamp
      = cur.timestamp := by
  have hres : handleVerify s (Except.ok res)
      = ({ s with isLoading := false, loadingStep := 0,
                  loadingMessage := "Validating Visual Data...",
                  imageHistory := s.imageHistory.set s.historyIndex
                    { cur with verification := some res } },
         [GatewayCall.verifyAccuracy cur.data ["General knowledge about " ++ cur.prompt]]) := by
    unfold handleVerify
    rw [if_neg hne, hcur]
    simp only [hfacts, Option.getD_none]
    rfl
  have hgd : (handleVerify s (Except.ok res)).1.imageHistory.getD s.historyIndex default
      = { cur with verification := some res } := by
    rw [hres]
    exact getD_set_self _ _ _ _ hidx
  refine ⟨?_, ?_, ?_, ?_, hgd, ?_, ?_⟩
  · rw [hres]
  · simp
  · rw [hres]
    exact List.length_set ..
  · rw [hres]
  · rw [hgd]
  · rw [hgd]

/-- Claim C6 witness: a Verify on a concrete one-artifact session whose
artifact has no recorded facts. -/
theorem verify_without_facts_nonempty_list_in_place_witness :
    (sampleStateNoFacts.imageHistory.length ≠ 0 ∧
     sampleStateNoFacts.historyIndex < sampleStateNoFacts.imageHistory.length ∧
     sampleStateNoFacts.imageHistory.getD sampleStateNoFacts.historyIndex default
       = sampleImageNoFacts ∧
     sampleImageNoFacts.facts = none) ∧
    ((handleVerify sampleStateNoFacts (Except.ok sampleVerif)).2
      = [GatewayCall.verifyAccuracy sampleImageNoFacts.data
          ["General knowledge about " ++ sampleImageNoFacts.prompt]] ∧
     (["General knowledge about " ++ sampleImageNoFacts.prompt] : List String) ≠ [] ∧
     (handleVerify sampleStateNoFacts (Except.ok sampleVerif)).1.imageHistory.length
       = sampleStateNoFacts.imageHistory.length ∧
     (handleVerify sampleStateNoFacts (Except.ok sampleVerif)).1.historyIndex
       = sampleStateNoFacts.historyIndex ∧
     (handleVerify sampleStateNoFacts (Except.ok sampleVerif)).1.imageHistory.getD
        sampleStateNoFacts.historyIndex default
       = { sampleImageNoFacts with verification := some sampleVerif } ∧
     ((handleVerify sampleStateNoFacts (Except.ok sampleVerif)).1.imageHistory.getD
        sampleStateNoFacts.historyIndex default).id = sampleImageNoFacts.id ∧
     ((handleVerify sampleStateNoFacts (Except.ok sampleVerif)).1.imageHistory.getD
        sampleStateNoFacts.historyIndex default).timestamp = sampleImageNoFacts.timestamp) :=
  ⟨⟨by decide, by decide, by decide, by decide⟩,
   verify_without_facts_nonempty_list_in_place sampleStateNoFacts sampleVerif
     sampleImageNoFacts (by decide) (by decide) (by decide) (by decide)⟩

/-! ### Claim C7 -/

namespace GeminiService

theorem mapInsert_urls_nodup (m : List SearchResultItem) (v : SearchResultItem)
    (h : (m.map SearchResultItem.url).Nodup) :
    ((mapInsert m v).map SearchResultItem.url).Nodup := by
  unfold mapInsert
  split
  · rename_i hany
    have hmap : (m.map (fun p => if p.url = v.url then v else p)).map SearchResultItem.url
        = m.map SearchResultItem.url := by
      rw [List.map_map]
      apply List.map_congr_left
      intro p _
      by_cases hp : p.url = v.url
      · simp [hp]
      · simp [hp]
    rw [hmap]
    exact h
  · rename_i hany
    rw [List.map_append]
    rw [List.nodup_append]
    refine ⟨h, List.nodup_singleton _, ?_⟩
    intro a ha hb
    simp only [List.map_cons, List.map_nil, List.mem_singleton] at hb
    subst hb
    simp only [List.any_eq_true, not_exists, not_and] at hany
    rcases List.mem_map.mp ha with ⟨q, hq, hqu⟩
    have := hany q hq
    simp only [decide_eq_true_eq] at this
    exact this (by rw [hqu])

theorem filter_mapInsert (m : List SearchResultItem) (v : SearchResultItem) (u : String)
    (h : (m.map SearchResultItem.url).Nodup) :
    (mapInsert m v).filter (fun it => it.url = u)
      = if v.url = u then [v] else m.filter (fun it => it.url = u) := by
  induction m with
  | nil =>
    unfold mapInsert
    simp only [List.any_nil, Bool.false_eq_true, if_false, List.nil_append]
    by_cases hv : v.url = u
    · simp [hv]
    · simp [hv]
  | cons p m ih =>
    simp only [List.map_cons, List.nodup_cons] at h
    obtain ⟨hp, hm⟩ := h
    by_cases hpv : p.url = v.url
    · have hmid : ∀ q ∈ m, ¬ q.url = v.url := by
        intro q hq hqv
        exact hp (List.mem_map.mpr ⟨q, hq, by rw [hqv, hpv]⟩)
      have heq : mapInsert (p :: m) v = v :: m := by
        unfold mapInsert
        rw [if_pos (by simp [hpv])]
        simp only [List.map_cons, if_pos hpv]
        congr 1
        rw [List.map_congr_left (fun q hq => if_neg (hmid q hq))]
        exact List.map_id m
      rw [heq]
      by_cases hvu : v.url = u
      · simp only [if_pos hvu, List.filter_cons, decide_eq_true_eq, hvu, if_pos trivial]
        have : m.filter (fun it => it.url = u) = [] := by
          rw [List.filter_eq_nil_iff]
          intro q hq
          simp only [decide_eq_true_eq]
          intro hqu
          exact hmid q hq (by rw [hqu, hvu])
        simp [this, hvu]
      · simp only [if_neg hvu, List.filter_cons]
        have h1 : (decide (v.url = u)) = false := by simpa using hvu
        have h2 : (decide (p.url = u)) = false := by
          simp only [decide_eq_false_iff_not]
          intro hpu
          exact hvu (by rw [← hpv, hpu])
        simp [h1, h2]
    · have heq : mapInsert (p :: m) v = p :: mapInsert m v := by
        unfold mapInsert
        by_cases hany : m.any (fun q => q.url = v.url)
        · rw [if_pos (by simp [hany]), if_pos hany]
          simp only [List.map_cons, if_neg hpv]
        · rw [if_neg (by simp [hany, hpv]), if_neg hany]
          rfl
      rw [heq]
      by_cases hpu : p.url = u
      · have hvu : ¬ v.url = u := by
          intro hvu
          exact hpv (by rw [hpu, hvu])
        simp only [List.filter_cons, decide_eq_true_eq]
        rw [ih hm]
        simp [hpu, hvu]
      · simp only [List.filter_cons, decide_eq_true_eq]
        rw [ih hm]
        by_cases hvu : v.url = u
        · simp [hpu, hvu]
        · simp [hpu, hvu]

theorem foldl_mapInsert_filter (xs : List SearchResultItem) :
    ∀ (m : List SearchResultItem), (m.map SearchResultItem.url).Nodup →
    ∀ u, ((xs.foldl mapInsert m).filter (fun it => it.url = u))
      = (lastWith u xs).elim (m.filter (fun it => it.url = u)) (fun it => [it]) := by
  induction xs with
  | nil =>
    intro m h u
    simp [lastWith]
  | cons x xs ih =>
    intro m h u
    rw [List.foldl_cons]
    rw [ih (mapInsert m x) (mapInsert_urls_nodup m x h) u]
    cases hlw : lastWith u xs with
    | some it => simp [lastWith, hlw]
    | none =>
      simp only [lastWith, hlw]
      rw [filter_mapInsert m x u h]
      by_cases hxu : x.url = u
      · simp [hxu]
      · simp [hxu]

theorem dedupeByUrl_filter (xs : List SearchResultItem) (u : String) :
    (dedupeByUrl xs).filter (fun it => it.url = u)
      = (lastWith u xs).elim [] (fun it => [it]) := by
  have h := foldl_mapInsert_filter xs [] (by simp) u
  simpa [dedupeByUrl] using h

/-- Claim C7: when the grounding chunks of a research response yield two
or more entries with the same URL, the deduplicated `searchResults` of
`researchTopicForPrompt` contain exactly one entry for that URL — the
last one encountered (its title and map/web tag included). -/
theorem research_dedupes_by_url_last_wins
    (topic level style : String) (response : GenAiResponse)
    (u : String) (lastItem : SearchResultItem)
    (hdup : 2 ≤ ((extractSearchResults (response.groundingChunks.getD [])).filter
        (fun it => it.url = u)).length)
    (hlast : lastWith u (extractSearchResults (response.groundingChunks.getD []))
        = some lastItem) :
    ((researchTopicForPrompt topic level style response).searchResults.filter
        (fun it => it.url = u)) = [lastItem] := by
  show ((dedupeByUrl (extractSearchResults (response.groundingChunks.getD []))).filter
      (fun it => it.url = u)) = [lastItem]
  rw [dedupeByUrl_filter, hlast]
  rfl

/-- Claim C7 witness: the deduplication theorem at a concrete response
whose grounding chunks name the same URL twice. -/
theorem research_dedupes_by_url_last_wins_witness :
    (2 ≤ ((extractSearchResults (sampleResponseDup.groundingChunks.getD [])).filter
        (fun it => it.url = "https://a.example")).length ∧
     lastWith "https://a.example"
        (extractSearchResults (sampleResponseDup.groundingChunks.getD []))
       = some { title := "Second A", url := "https://a.example", isMap := true }) ∧
    ((researchTopicForPrompt "t" "College" "Sketch" sampleResponseDup).searchResults.filter
        (fun it => it.url = "https://a.example"))
      = [{ title := "Second A", url := "https://a.example", isMap := true }] :=
  ⟨⟨by decide, by decide⟩,
   research_dedupes_by_url_last_wins "t" "College" "Sketch" sampleResponseDup
     "https://a.example" { title := "Second A", url := "https://a.example", isMap := true }
     (by decide) (by decide)⟩

/-! ### Claim C8 -/

/-- Claim C8 counterexample: a raw text with a FACTS section but no
IMAGE_PROMPT section produces the fallback image prompt, yet its facts
list is not empty — refuting "the returned facts list is empty". -/
theorem research_no_image_prompt_facts_nonempty_cex :
    findSection imagePromptLabel (sampleResponseNoPrompt.text.getD "").data = none ∧
    (researchTopicForPrompt "cats" "College" "Sketch" sampleResponseNoPrompt).facts
      = ["A cat fact"] ∧
    (researchTopicForPrompt "cats" "College" "Sketch" sampleResponseNoPrompt).facts ≠ [] := by
  refine ⟨by decide, by decide, by decide⟩

/-- Claim C8 (amended): when the raw text has no IMAGE_PROMPT section the
returned `imagePrompt` is the deterministic fallback built from the topic
and the level and style instruction strings; and the returned facts are
`[]` provided the raw text has no FACTS section either (the two sections
are parsed independently). -/
theorem research_no_image_prompt_fallback
    (topic level style : String) (response : GenAiResponse)
    (hp : findSection imagePromptLabel (response.text.getD "").data = none) :
    (researchTopicForPrompt topic level style response).imagePrompt
      = "Create a detailed infographic about " ++ topic ++ ". " ++
          getLevelInstruction level ++ " " ++ getStyleInstruction style ∧
    (findSection factsLabel (response.text.getD "").data = none →
      (researchTopicForPrompt topic level style response).facts = []) := by
  constructor
  · show parseImagePrompt topic (getLevelInstruction level) (getStyleInstruction style)
        (response.text.getD "") = _
    unfold parseImagePrompt
    rw [hp]
  · intro hf
    show parseFacts (response.text.getD "") = []
    unfold parseFacts parseFactsRaw
    rw [hf]
    decide

/-- Claim C8 witness: the amended theorem at a concrete response whose
text has neither section. -/
theorem research_no_image_prompt_fallback_witness :
    (findSection imagePromptLabel
        (({ text := some "just prose" } : GenAiResponse).text.getD "").data = none) ∧
    ((researchTopicForPrompt "cats" "College" "Sketch"
        { text := some "just prose" }).imagePrompt
      = "Create a detailed infographic about cats. " ++
          getLevelInstruction "College" ++ " " ++ getStyleInstruction "Sketch" ∧
     (findSection factsLabel (({ text := some "just prose" } : GenAiResponse).text.getD "").data = none →
       (researchTopicForPrompt "cats" "College" "Sketch"
          { text := some "just prose" }).facts = [])) :=
  ⟨by decide,
   by
     have h := research_no_image_prompt_fallback "cats" "College" "Sketch"
       { text := some "just prose" } (by decide)
     simpa using h⟩

end GeminiService

/-! ### Claim C9 -/

/-- Claim C9: an inbound message carrying the `interrupted` signal leaves
the playback queue empty, resets the scheduling clock to the playback
context's current time, and every source that was queued (or playing) has
been stopped — so no previously scheduled chunk survives the
interruption. -/
theorem interrupted_stops_and_resets
    (st : LiveAudioState) (msg : ServerMessage)
    (hi : msg.interrupted = true) (hctx : st.hasOutputCtx = true) :
    (onmessage st msg).1.audioQueue = [] ∧
    (onmessage st msg).1.nextStartTime = st.currentTime ∧
    (∀ src ∈ st.audioQueue, src ∈ (onmessage st msg).2) := by
  unfold onmessage
  cases hA : msg.audioChunk with
  | none =>
    simp [hi, hctx]
  | some d =>
    refine ⟨by simp [hi, hctx], by simp [hi, hctx], ?_⟩
    intro src hsrc
    simp only [hi, hctx, if_pos, if_true]
    simp [List.mem_append, hsrc]

/-- Claim C9 witness: an interruption arriving together with an audio
chunk at a concrete playback state. -/
theorem interrupted_stops_and_resets_witness :
    (({ audioChunk := some 30, interrupted := true } : ServerMessage).interrupted = true ∧
     sampleLive.hasOutputCtx = true) ∧
    ((onmessage sampleLive { audioChunk := some 30, interrupted := true }).1.audioQueue = [] ∧
     (onmessage sampleLive { audioChunk := some 30, interrupted := true }).1.nextStartTime
       = sampleLive.currentTime ∧
     (∀ src ∈ sampleLive.audioQueue,
       src ∈ (onmessage sampleLive { audioChunk := some 30, interrupted := true }).2)) :=
  ⟨⟨by decide, by decide⟩,
   interrupted_stops_and_resets sampleLive { audioChunk := some 30, interrupted := true }
     (by decide) (by decide)⟩

/-! ### Claim C10 -/

/-- Claim C10: RefreshContext never touches the history or the pointer;
on success it always replaces `currentSearchResults` with the refreshed
results, and leaves `loadingFacts` unchanged whenever the refreshed
research returned zero facts. -/
theorem refresh_news_preserves_facts_when_empty
    (s : SessionState) (research : Except GenError ResearchResult) (rr : ResearchResult)
    (hne : s.imageHistory.length ≠ 0) :
    (∀ (s2 : SessionState) (r2 : Except GenError ResearchResult),
      (handleRefreshNews s2 r2).1.imageHistory = s2.imageHistory ∧
      (handleRefreshNews s2 r2).1.historyIndex = s2.historyIndex) ∧
    (research = Except.ok rr →
      (handleRefreshNews s research).1.currentSearchResults = rr.searchResults ∧
      (rr.facts = [] → (handleRefreshNews s research).1.loadingFacts = s.loadingFacts)) := by
  constructor
  · intro s2 r2
    unfold handleRefreshNews
    by_cases hg : s2.imageHistory.length = 0
    · rw [if_pos hg]
      exact ⟨rfl, rfl⟩
    · rw [if_neg hg]
      cases r2 with
      | error e =>
        exact ⟨handleError_imageHistory _ e, handleError_historyIndex _ e⟩
      | ok rr2 =>
        exact ⟨rfl, rfl⟩
  · intro hre
    subst hre
    unfold handleRefreshNews
    rw [if_neg hne]
    constructor
    · rfl
    · intro hf
      show (if rr.facts.length > 0 then rr.facts else s.loadingFacts) = s.loadingFacts
      rw [hf]
      rfl

/-- Claim C10 witness: a refresh returning zero facts at a concrete
one-artifact session. -/
theorem refresh_news_preserves_facts_when_empty_witness :
    (sampleState.imageHistory.length ≠ 0) ∧
    ((∀ (s2 : SessionState) (r2 : Except GenError ResearchResult),
       (handleRefreshNews s2 r2).1.imageHistory = s2.imageHistory ∧
       (handleRefreshNews s2 r2).1.historyIndex = s2.historyIndex) ∧
     ((Except.ok sampleResearchNoFacts : Except GenError ResearchResult)
         = Except.ok sampleResearchNoFacts →
       (handleRefreshNews sampleState (Except.ok sampleResearchNoFacts)).1.currentSearchResults
         = sampleResearchNoFacts.searchResults ∧
       (sampleResearchNoFacts.facts = [] →
         (handleRefreshNews sampleState (Except.ok sampleResearchNoFacts)).1.loadingFacts
           = sampleState.loadingFacts))) :=
  ⟨by decide,
   refresh_news_preserves_facts_when_empty sampleState
     (Except.ok sampleResearchNoFacts) sampleResearchNoFacts (by decide)⟩

end InfoGenius
